import Mathlib

set_option autoImplicit false

/- Verification development for the CaptivateChat client library
   (connection/session management and event-correlation core).
   The definitions below transcribe the TypeScript source of
   src/api/Conversation.ts and src/api/CaptivateChatAPI.ts into Lean;
   the theorems settle the specification claims about that code. -/

/-! ## Connection handshake: CaptivateChatAPI.connect() -/

/-- A transport-level event delivered to one of the handlers that connect()
installs on the freshly created WebSocket, tagged elsewhere with its arrival
time. A message frame is represented after JSON parsing by its
event.event_type and event.event_payload.socket_id fields; a frame whose JSON
fails to parse is a separate constructor because the source catches the parse
error inside onmessage and ignores the frame. -/
inductive ConnEvent where
  | openEv : ConnEvent
  | messageEv (eventType : Option String) (socketId : Option String) : ConnEvent
  | parseErrorEv : ConnEvent
  | errorEv (msg : Option String) : ConnEvent
  | closeEv (code : Nat) : ConnEvent
  deriving DecidableEq

/-- How the promise returned by connect() settles. -/
inductive ConnectOutcome where
  | resolved (socketId : Option String) : ConnectOutcome
  | rejectedError (msg : String) : ConnectOutcome
  | rejectedTimeout : ConnectOutcome
  deriving DecidableEq

/-- The fixed handshake window that connect() passes to setTimeout. -/
def connectTimeoutMs : Nat := 10000

/-- Settlement of the promise returned by CaptivateChatAPI.connect(), run
over the time-ordered list of transport events. The onopen and onclose
handlers never settle the promise; onmessage settles it (resolve, capturing
event_payload.socket_id) only for a frame whose event_type is
'socket_connected'; onerror rejects with event.message or the fallback text;
the 10-second timer rejects with a timeout once no earlier event settled. -/
def connectRun : List (Nat × ConnEvent) → ConnectOutcome
  | [] => ConnectOutcome.rejectedTimeout
  | (t, e) :: rest =>
    if connectTimeoutMs ≤ t then ConnectOutcome.rejectedTimeout
    else
      match e with
      | ConnEvent.messageEv et sid =>
          if et = some "socket_connected" then ConnectOutcome.resolved sid
          else connectRun rest
      | ConnEvent.errorEv m => ConnectOutcome.rejectedError (m.getD "WebSocket error")
      | _ => connectRun rest

/-- Whether an event is a parsed frame carrying event_type 'socket_connected'. -/
def isSocketConnectedFrame : ConnEvent → Bool
  | ConnEvent.messageEv et _ => et == some "socket_connected"
  | _ => false

/-- Whether an event is a transport-level error event. -/
def isErrorEvent : ConnEvent → Bool
  | ConnEvent.errorEv _ => true
  | _ => false

lemma connectRun_no_frame_not_resolved (evs : List (Nat × ConnEvent))
    (h : ∀ p ∈ evs, isSocketConnectedFrame p.2 = false) :
    ∀ sid, connectRun evs ≠ ConnectOutcome.resolved sid := by
  induction evs with
  | nil => intro sid; simp [connectRun]
  | cons p rest ih =>
      intro sid
      obtain ⟨t, e⟩ := p
      have he : isSocketConnectedFrame e = false := h (t, e) (List.mem_cons_self _ _)
      have hrest : ∀ q ∈ rest, isSocketConnectedFrame q.2 = false := by
        intro q hq; exact h q (List.mem_cons_of_mem _ hq)
      by_cases ht : connectTimeoutMs ≤ t
      · simp [connectRun, ht]
      · cases e with
        | openEv => simpa [connectRun, ht] using ih hrest sid
        | messageEv et s =>
            have : (et == some "socket_connected") = false := he
            have hne : ¬ et = some "socket_connected" := by
              intro hc; rw [hc] at this; simp at this
            simpa [connectRun, ht, hne] using ih hrest sid
        | parseErrorEv => simpa [connectRun, ht] using ih hrest sid
        | errorEv m => simp [connectRun, ht]
        | closeEv c => simpa [connectRun, ht] using ih hrest sid

lemma connectRun_no_frame_no_error_timeout (evs : List (Nat × ConnEvent))
    (h : ∀ p ∈ evs, isSocketConnectedFrame p.2 = false ∧ isErrorEvent p.2 = false) :
    connectRun evs = ConnectOutcome.rejectedTimeout := by
  induction evs with
  | nil => simp [connectRun]
  | cons p rest ih =>
      obtain ⟨t, e⟩ := p
      obtain ⟨he1, he2⟩ := h (t, e) (List.mem_cons_self _ _)
      have hrest : ∀ q ∈ rest, isSocketConnectedFrame q.2 = false ∧ isErrorEvent q.2 = false := by
        intro q hq; exact h q (List.mem_cons_of_mem _ hq)
      by_cases ht : connectTimeoutMs ≤ t
      · simp [connectRun, ht]
      · cases e with
        | openEv => simpa [connectRun, ht] using ih hrest
        | messageEv et s =>
            have : (et == some "socket_connected") = false := he1
            have hne : ¬ et = some "socket_connected" := by
              intro hc; rw [hc] at this; simp at this
            simpa [connectRun, ht, hne] using ih hrest
        | parseErrorEv => simpa [connectRun, ht] using ih hrest
        | errorEv m => simp [isErrorEvent] at he2
        | closeEv c => simpa [connectRun, ht] using ih hrest

/-- Claim C1: connect() resolves only after an inbound 'socket_connected' frame
(capturing its socket_id); without such a frame it never resolves — in
particular a transport open event alone never resolves it — and if neither
such a frame nor a transport error event occurs before the 10-second window
closes the promise rejects with the timeout, while a transport error event
inside the window rejects it immediately. -/
theorem connect_settlement (evs : List (Nat × ConnEvent)) :
    ((∀ p ∈ evs, isSocketConnectedFrame p.2 = false) →
        ∀ sid, connectRun evs ≠ ConnectOutcome.resolved sid)
  ∧ ((∀ p ∈ evs, isSocketConnectedFrame p.2 = false ∧ isErrorEvent p.2 = false) →
        connectRun evs = ConnectOutcome.rejectedTimeout)
  ∧ (∀ t sid rest, t < connectTimeoutMs →
        connectRun ((t, ConnEvent.messageEv (some "socket_connected") sid) :: rest)
          = ConnectOutcome.resolved sid)
  ∧ (∀ t m rest, t < connectTimeoutMs →
        connectRun ((t, ConnEvent.errorEv m) :: rest)
          = ConnectOutcome.rejectedError (m.getD "WebSocket error")) := by
  refine ⟨connectRun_no_frame_not_resolved evs, connectRun_no_frame_no_error_timeout evs, ?_, ?_⟩
  · intro t sid rest ht
    simp [connectRun, Nat.not_le.mpr ht]
  · intro t m rest ht
    simp [connectRun, Nat.not_le.mpr ht]

/-- Concrete instance of the connect() settlement theorem: a transport open
event alone, with no 'socket_connected' frame, ends in the timeout rejection. -/
theorem connect_settlement_witness :
    connectRun [(5, ConnEvent.openEv)] = ConnectOutcome.rejectedTimeout :=
  (connect_settlement [(5, ConnEvent.openEv)]).2.1 (by decide)

/-! ## Reconnection budget: CaptivateChatAPI.reconnect() -/

/-- The maxReconnectAttempts field of CaptivateChatAPI. -/
def maxReconnectAttempts : Nat := 5

/-- The message of the error thrown by reconnect() when its guard finds the
attempt counter already at or above the maximum. -/
def reconnectExhaustedMsg : String :=
  "Max reconnection attempts (" ++ toString maxReconnectAttempts ++ ") reached"

/-- Settlement of a reconnect() call: either the promise resolves (recording
the final value of the reconnectAttempts counter) or it rejects with an error
message (recording the final counter value as well). -/
inductive ReconnectResult where
  | success (attempts : Nat) : ReconnectResult
  | failure (msg : String) (attempts : Nat) : ReconnectResult
  deriving DecidableEq

/-- CaptivateChatAPI.reconnect(), run against a stream of outcomes for the
successive connect() calls it makes (Except.ok for a connect() that resolves,
Except.error msg for one that rejects with message msg). The first component
of the result is the settlement together with the final reconnectAttempts
counter; the second component counts how many connect() calls were performed.
The guard throws the exhaustion error when the counter is already at the
maximum; otherwise the counter is incremented and connect() is awaited: on
success the counter resets to zero, on failure reconnect() recurses after a
delay while the incremented counter is below the maximum and otherwise
rethrows the connect() error. The empty-stream case is a modelling artifact
never reached by the theorems below. -/
def reconnectRun : List (Except String Unit) → Nat → ReconnectResult × Nat
  | outcomes, attempts =>
    if maxReconnectAttempts ≤ attempts then
      (ReconnectResult.failure reconnectExhaustedMsg attempts, 0)
    else
      match outcomes with
      | [] => (ReconnectResult.failure "model: connect outcome stream exhausted" attempts, 0)
      | Except.ok _ :: _ => (ReconnectResult.success 0, 1)
      | Except.error msg :: rest =>
          if attempts + 1 < maxReconnectAttempts then
            let r := reconnectRun rest (attempts + 1)
            (r.1, r.2 + 1)
          else
            (ReconnectResult.failure msg (attempts + 1), 1)

/-- Counterexample to claim C2: with the counter starting at zero and five
consecutive connect() failures (each the connect timeout error), reconnect()
rejects with the fifth connect error itself, not with an error signalling
exhaustion of the attempt budget — the exhaustion message is different. -/
theorem reconnect_budget_counterexample :
    reconnectRun (List.replicate 5
        (Except.error "Connection timeout: socket_connected not received")) 0
      = (ReconnectResult.failure "Connection timeout: socket_connected not received" 5, 5)
  ∧ "Connection timeout: socket_connected not received" ≠ reconnectExhaustedMsg := by
  constructor
  · rfl
  · decide

/-- Claim C2 (amended): with the counter at zero and every connect() attempt
failing, reconnect() performs exactly maxReconnectAttempts (5) connect()
calls and rejects with the last connect() error (not an exhaustion-worded
error); any reconnect() call finding the counter already at or above the
maximum rejects immediately with the exhaustion error and performs no
connect() call; and whenever a connect() attempt inside reconnect() succeeds
the attempt counter is reset to zero. -/
theorem reconnect_budget_amended :
    (∀ m1 m2 m3 m4 m5 : String, ∀ rest : List (Except String Unit),
        reconnectRun (Except.error m1 :: Except.error m2 :: Except.error m3 ::
            Except.error m4 :: Except.error m5 :: rest) 0
          = (ReconnectResult.failure m5 5, 5))
  ∧ (∀ outs : List (Except String Unit), ∀ attempts : Nat,
        maxReconnectAttempts ≤ attempts →
        reconnectRun outs attempts = (ReconnectResult.failure reconnectExhaustedMsg attempts, 0))
  ∧ (∀ rest : List (Except String Unit), ∀ attempts : Nat,
        attempts < maxReconnectAttempts →
        reconnectRun (Except.ok () :: rest) attempts = (ReconnectResult.success 0, 1)) := by
  refine ⟨?_, ?_, ?_⟩
  · intro m1 m2 m3 m4 m5 rest
    rfl
  · intro outs attempts h
    cases outs with
    | nil => simp [reconnectRun, h]
    | cons o rest => cases o <;> simp [reconnectRun, h]
  · intro rest attempts h
    simp [reconnectRun, Nat.not_le.mpr h]

/-- Concrete instance of the amended reconnect budget theorem: a successful
connect() inside reconnect() resets the counter to zero after one call. -/
theorem reconnect_budget_amended_witness :
    reconnectRun [Except.ok ()] 3 = (ReconnectResult.success 0, 1) :=
  reconnect_budget_amended.2.2 [] 3 (by decide)

/-! ## Reconnect guard wrapper: withSocketGuard -/

/-- The method names that withSocketGuard leaves unwrapped. -/
def guardExcludedMethods : List String :=
  ["isSocketActive", "connect", "reconnect", "getSocket"]

/-- Outcome of invoking a method on a withSocketGuard-wrapped instance:
either the original method body runs (producing its value), or the call
rejects with the reconnection-failed error before the body ever runs. -/
inductive GuardOutcome (α : Type) where
  | executed (v : α) : GuardOutcome α
  | reconnectFailed (msg : String) : GuardOutcome α
  deriving DecidableEq

/-- The proxy trap of withSocketGuard for an invocation of method prop.
Excluded methods run the original body directly; a guarded method first
checks isSocketActive() and, when the socket is inactive, awaits reconnect()
(its settlement is the reconnectOutcome argument): if reconnect() resolves
the body runs, and if it rejects with message m the call rejects with the
descriptive error naming the method. The value op is what the original
method body would produce; returning it inside the executed constructor is
what running the body means in this model. -/
def withSocketGuard {α : Type} (prop : String) (socketActive : Bool)
    (reconnectOutcome : Except String Unit) (op : α) : GuardOutcome α :=
  if guardExcludedMethods.contains prop then GuardOutcome.executed op
  else if socketActive then GuardOutcome.executed op
  else
    match reconnectOutcome with
    | Except.ok _ => GuardOutcome.executed op
    | Except.error m =>
        GuardOutcome.reconnectFailed
          ("Socket reconnection failed. Cannot execute " ++ prop ++ ": " ++ m)

/-- Claim C3: for every method outside the excluded primitives, a call with
the socket inactive first awaits reconnect(); if reconnect() rejects the call
rejects with the descriptive reconnection-failed error naming the method and
the original body is never executed, while if reconnect() resolves the body
does run. -/
theorem guard_blocks_on_reconnect_failure {α : Type} (prop : String) (m : String) (op : α)
    (hprop : guardExcludedMethods.contains prop = false) :
    withSocketGuard prop false (Except.error m) op
        = GuardOutcome.reconnectFailed
            ("Socket reconnection failed. Cannot execute " ++ prop ++ ": " ++ m)
  ∧ (∀ v : α, withSocketGuard prop false (Except.error m) op ≠ GuardOutcome.executed v)
  ∧ withSocketGuard prop false (Except.ok ()) op = GuardOutcome.executed op := by
  have hmem : prop ∉ guardExcludedMethods := by simpa using hprop
  refine ⟨?_, ?_, ?_⟩
  · simp [withSocketGuard, hmem]
  · intro v
    simp [withSocketGuard, hmem]
  · simp [withSocketGuard, hmem]

/-- Concrete instance of the guard theorem: a sendMessage call on an
inactive socket whose reconnect() rejects is itself rejected with the
reconnection-failed error and the body does not run. -/
theorem guard_blocks_witness :
    withSocketGuard "sendMessage" false (Except.error "budget spent") (0 : Nat)
      = GuardOutcome.reconnectFailed
          "Socket reconnection failed. Cannot execute sendMessage: budget spent" :=
  (guard_blocks_on_reconnect_failure "sendMessage" "budget spent" 0 (by decide)).1

/-! ## Listener registry and dispatch: Conversation.addListener / handleMessage -/

/-- Lookup in a JS Map keyed by strings, modelled as an association list
kept in insertion order as a JS Map is. -/
def mapGet {β : Type} : List (String × β) → String → Option β
  | [], _ => none
  | p :: rest, k => if p.1 == k then some p.2 else mapGet rest k

/-- JS Map.prototype.set: replace the value of an existing key in place,
otherwise append the new binding at the end. -/
def mapSet {β : Type} : List (String × β) → String → β → List (String × β)
  | [], k, v => [(k, v)]
  | p :: rest, k, v => if p.1 == k then (k, v) :: rest else p :: mapSet rest k v

/-- Conversation.addListener(eventType, callback): create an empty callback
array for the event type when absent, then push the callback at its end. -/
def addListener {κ : Type} (m : List (String × List κ)) (et : String) (cb : κ) :
    List (String × List κ) :=
  let m1 := if (mapGet m et).isSome then m else mapSet m et []
  mapSet m1 et ((mapGet m1 et).getD [] ++ [cb])

/-- Conversation.handleMessage on a parsed frame: the dispatcher tests the
extracted event_type for JS truthiness and then for registered listeners
(if eventType and listeners.has(eventType)), so an absent event_type and the
falsy empty string are both skipped; otherwise every callback in the stored
array is invoked with the frame's event_payload, in array order. The result
lists the invocations performed. -/
def handleMessage {κ π : Type} (m : List (String × List κ)) (eventType : Option String)
    (payload : π) : List (κ × π) :=
  match eventType with
  | some et =>
      if et = "" then []
      else
        match mapGet m et with
        | some cbs => cbs.map (fun c => (c, payload))
        | none => []
  | none => []

/-- A sequence of addListener calls for one event type. -/
def registerAll {κ : Type} (m : List (String × List κ)) (et : String) (cbs : List κ) :
    List (String × List κ) :=
  cbs.foldl (fun acc c => addListener acc et c) m

lemma mapGet_mapSet_self {β : Type} (m : List (String × β)) (k : String) (v : β) :
    mapGet (mapSet m k v) k = some v := by
  induction m with
  | nil => simp [mapSet, mapGet]
  | cons p rest ih =>
      by_cases h : (p.1 == k) = true
      · simp [mapSet, mapGet, h]
      · simp only [mapSet, mapGet, h]
        simpa [Bool.not_eq_true] using ih

lemma mapGet_addListener_self {κ : Type} (m : List (String × List κ)) (et : String) (cb : κ) :
    mapGet (addListener m et cb) et = some ((mapGet m et).getD [] ++ [cb]) := by
  cases hm : mapGet m et with
  | none => simp [addListener, hm, mapGet_mapSet_self]
  | some cbs => simp [addListener, hm, mapGet_mapSet_self]

lemma registerAll_cons_get {κ : Type} (et : String) (rest : List κ) :
    ∀ (m : List (String × List κ)) (c : κ),
      mapGet (registerAll (addListener m et c) et rest) et
        = some ((mapGet m et).getD [] ++ c :: rest) := by
  induction rest with
  | nil =>
      intro m c
      simpa [registerAll] using mapGet_addListener_self m et c
  | cons c2 rest2 ih =>
      intro m c
      have step : registerAll (addListener m et c) et (c2 :: rest2)
          = registerAll (addListener (addListener m et c) et c2) et rest2 := by
        simp [registerAll, List.foldl_cons]
      rw [step, ih (addListener m et c) c2, mapGet_addListener_self m et c]
      simp

/-- Counterexample to claim C4: a callback registered under the empty-string
event type is held in the listeners Map, yet a frame carrying that event_type
is never dispatched — the dispatcher's truthiness test skips the empty
string, so the registered callback is not invoked even once. -/
theorem listener_dispatch_counterexample :
    mapGet (registerAll ([] : List (String × List Nat)) "" [0]) "" = some [0]
  ∧ handleMessage (registerAll ([] : List (String × List Nat)) "" [0]) (some "") "payload"
      = ([] : List (Nat × String))
  ∧ ([] : List (Nat × String)) ≠ [(0, "payload")] := by
  refine ⟨rfl, rfl, by decide⟩

/-- Claim C4 (amended): after any sequence of addListener calls for one
non-empty event type, the arrival of one inbound frame carrying that
event_type invokes each registered callback (duplicates included) exactly
once with the frame's event_payload, in registration order, after the
callbacks that were already registered before the sequence; a frame whose
event_type is the empty string, or absent, is never dispatched because the
dispatcher tests the event type for JS truthiness. -/
theorem listener_dispatch_amended {κ π : Type} (m : List (String × List κ)) (et : String)
    (cbs : List κ) (payload : π) :
    (et ≠ "" →
        handleMessage (registerAll m et cbs) (some et) payload
          = ((mapGet m et).getD [] ++ cbs).map (fun c => (c, payload)))
  ∧ handleMessage m (some "") payload = ([] : List (κ × π))
  ∧ handleMessage m none payload = ([] : List (κ × π)) := by
  refine ⟨?_, ?_, ?_⟩
  · intro hne
    cases cbs with
    | nil =>
        cases hm : mapGet m et with
        | none => simp [registerAll, handleMessage, hne, hm]
        | some prev => simp [registerAll, handleMessage, hne, hm]
    | cons c rest =>
        have step : registerAll m et (c :: rest) = registerAll (addListener m et c) et rest := by
          simp [registerAll, List.foldl_cons]
        rw [step]
        simp [handleMessage, hne, registerAll_cons_get et rest m c]
  · simp [handleMessage]
  · simp [handleMessage]

/-- Concrete instance of the amended dispatch theorem: two registrations of
the same callback under bot_message are each invoked once, in order, with
the payload. -/
theorem listener_dispatch_amended_witness :
    handleMessage (registerAll ([] : List (String × List Nat)) "bot_message" [0, 0])
        (some "bot_message") "payload"
      = [(0, "payload"), (0, "payload")] := by
  simpa using
    (listener_dispatch_amended ([] : List (String × List Nat)) "bot_message" [0, 0]
      "payload").1 (by decide)

/-! ## Dispatch when a callback throws: forEach inside handleMessage -/

/-- The forEach loop of Conversation.handleMessage when callbacks may throw.
Each callback's behaviour is given by beh: none means it returns normally,
some e means it raises e. Array.prototype.forEach runs callbacks in order and
does not catch: a raised exception stops iteration and escapes handleMessage.
The result is the list of invocations actually performed (callback applied to
the payload) together with the exception that escaped, if any. -/
def dispatchRun {κ π ε : Type} : List κ → (κ → π → Option ε) → π → List (κ × π) × Option ε
  | [], _, _ => ([], none)
  | c :: rest, beh, p =>
    match beh c p with
    | none =>
        let r := dispatchRun rest beh p
        ((c, p) :: r.1, r.2)
    | some e => ([(c, p)], some e)

/-- Counterexample to claim C5: two callbacks registered for one event type,
the first raising during dispatch; the second is never invoked — its
invocation is absent from the performed list, so one callback's failure does
suppress delivery to subsequent callbacks. -/
theorem dispatch_isolation_counterexample :
    (dispatchRun [0, 1] (fun c (_ : String) => if c = 0 then some "boom" else none)
        "payload").1
      = [(0, "payload")]
  ∧ ((1, "payload") ∉ (dispatchRun [0, 1]
        (fun c (_ : String) => if c = 0 then some "boom" else none) "payload").1) := by
  constructor
  · rfl
  · decide

/-- Claim C5 (amended): dispatch is not isolated per callback: when every
callback before c returns normally and c raises e, exactly the callbacks up
to and including c are invoked with the payload, the callbacks registered
after c are not invoked, and the exception e escapes the dispatch loop. -/
theorem dispatch_abort_amended {κ π ε : Type} (pre post : List κ) (c : κ)
    (beh : κ → π → Option ε) (p : π) (e : ε)
    (hpre : ∀ x ∈ pre, beh x p = none) (hc : beh c p = some e) :
    dispatchRun (pre ++ c :: post) beh p
      = (pre.map (fun x => (x, p)) ++ [(c, p)], some e) := by
  induction pre with
  | nil => simp [dispatchRun, hc]
  | cons x rest ih =>
      have hx : beh x p = none := hpre x (List.mem_cons_self _ _)
      have hrest : ∀ y ∈ rest, beh y p = none := by
        intro y hy; exact hpre y (List.mem_cons_of_mem _ hy)
      simp [dispatchRun, hx, ih hrest]

/-- Concrete instance of the amended dispatch theorem: with callbacks
[7, 8, 9] where 8 raises, only 7 and 8 are invoked and the exception
escapes. -/
theorem dispatch_abort_amended_witness :
    dispatchRun ([7] ++ 8 :: [9])
        (fun c (_ : String) => if c = 8 then some "boom" else none) "p"
      = ([(7, "p"), (8, "p")], some "boom") := by
  have h := dispatch_abort_amended [7] [9] 8
      (fun c (_ : String) => if c = 8 then some "boom" else none) "p" "boom"
      (by intro x hx; simp at hx; simp [hx]) (by simp)
  simpa using h

/-! ## Large-message recovery: the general_error listener of Conversation.onMessage -/

/-- The event_payload of an inbound general_error frame, as the fields the
listener reads; absent fields are none. -/
structure GeneralErrorPayload where
  error_code : Option Int
  message_link : Option String
  error_desc : Option String

/-- The HTTP GET that the listener issues for an oversized message: the url
is the frame's message_link, and the request carries the conversation's api
key in its x-api-key header. -/
structure FetchRequest where
  url : String
  xApiKey : String
  deriving DecidableEq

/-- Outcome of the out-of-band fetch. fetchOk is a response with ok status
whose JSON body yields botMessage.content; httpError is a non-ok status (the
code turns it into a thrown Error); fetchThrew covers any other exception in
the try block (network failure, JSON parse failure, missing botMessage), with
the exception's message. -/
inductive FetchResult where
  | fetchOk (content : String) : FetchResult
  | httpError (status : Nat) (statusText : String) : FetchResult
  | fetchThrew (msg : String) : FetchResult
  deriving DecidableEq

/-- JS truthiness of the message_link field: absent and empty strings are
falsy. -/
def jsTruthyLink : Option String → Option String
  | some s => if s = "" then none else some s
  | none => none

/-- What the catch-free part of the listener delivers to the onMessage
callback for each fetch outcome. -/
def fetchDelivery : FetchResult → String × String
  | FetchResult.fetchOk content => (content, "ai_agent")
  | FetchResult.httpError st stx =>
      ("[Error fetching large message: Failed to fetch large message: "
        ++ toString st ++ " " ++ stx ++ "]", "error")
  | FetchResult.fetchThrew m =>
      ("[Error fetching large message: " ++ m ++ "]", "error")

/-- What the listener delivers for a general_error frame that is not an
oversized-message report. -/
def otherErrorDelivery (p : GeneralErrorPayload) : String × String :=
  ("[Error: " ++ p.error_desc.getD "Unknown error" ++ "]", "error")

/-- The 'general_error' listener that Conversation.onMessage registers, as a
total function: the fetch request it issues (none when it does not fetch) and
the single invocation of the registered callback (message text and type tag).
Its totality reflects that the listener catches every fetch failure itself
and never rethrows to the application. -/
def generalErrorHandler (apiKey : String) (p : GeneralErrorPayload) (fetch : FetchResult) :
    Option FetchRequest × (String × String) :=
  if p.error_code = some 413 then
    match jsTruthyLink p.message_link with
    | some link => (some ⟨link, apiKey⟩, fetchDelivery fetch)
    | none => (none, otherErrorDelivery p)
  else (none, otherErrorDelivery p)

/-- Claim C6: on a general_error frame whose payload has error_code 413 and a
non-empty message_link, the listener fetches message_link with the x-api-key
header; on fetch success the onMessage callback receives the fetched content
tagged 'ai_agent', and on either fetch failure shape it receives a string
beginning with '[Error fetching large message:' tagged 'error' — the handler
is total, so no error propagates to the application. -/
theorem large_message_recovery (apiKey link : String) (p : GeneralErrorPayload)
    (hcode : p.error_code = some 413) (hlink : p.message_link = some link)
    (hne : link ≠ "") :
    (∀ fetch, (generalErrorHandler apiKey p fetch).1 = some ⟨link, apiKey⟩)
  ∧ (∀ content,
        (generalErrorHandler apiKey p (FetchResult.fetchOk content)).2
          = (content, "ai_agent"))
  ∧ (∀ st stx, ∃ tail,
        (generalErrorHandler apiKey p (FetchResult.httpError st stx)).2
          = ("[Error fetching large message: " ++ tail, "error"))
  ∧ (∀ m, ∃ tail,
        (generalErrorHandler apiKey p (FetchResult.fetchThrew m)).2
          = ("[Error fetching large message: " ++ tail, "error")) := by
  refine ⟨?_, ?_, ?_, ?_⟩
  · intro fetch
    simp [generalErrorHandler, jsTruthyLink, hcode, hlink, hne]
  · intro content
    simp [generalErrorHandler, jsTruthyLink, hcode, hlink, hne, fetchDelivery]
  · intro st stx
    refine ⟨"Failed to fetch large message: " ++ toString st ++ " " ++ stx ++ "]", ?_⟩
    have hlit : ("[Error fetching large message: Failed to fetch large message: " : String)
        = "[Error fetching large message: " ++ "Failed to fetch large message: " := rfl
    simp [generalErrorHandler, jsTruthyLink, hcode, hlink, hne, fetchDelivery,
      String.append_assoc]
    rw [hlit, String.append_assoc]
  · intro m
    refine ⟨m ++ "]", ?_⟩
    simp [generalErrorHandler, jsTruthyLink, hcode, hlink, hne, fetchDelivery,
      String.append_assoc]

/-- Concrete instance of the large-message recovery theorem: error_code 413
with message_link https://x and a successful fetch delivers the fetched
content tagged ai_agent. -/
theorem large_message_recovery_witness :
    (generalErrorHandler "key" ⟨some 413, some "https://x", none⟩
        (FetchResult.fetchOk "hello")).2 = ("hello", "ai_agent") :=
  (large_message_recovery "key" "https://x" ⟨some 413, some "https://x", none⟩
      rfl rfl (by decide)).2.1 "hello"

/-! ## Metadata updates: Conversation.setMetadata -/

/-- A JavaScript value as the setMetadata argument can present it: the
validation only inspects typeof and null-ness, so object contents are kept
opaque behind an identity. -/
inductive JsValue where
  | nullV : JsValue
  | undefinedV : JsValue
  | boolV (b : Bool) : JsValue
  | numV (n : Int) : JsValue
  | strV (s : String) : JsValue
  | funcV (id : Nat) : JsValue
  | objV (id : Nat) : JsValue
  deriving DecidableEq

/-- The JS typeof operator on such a value (typeof null is 'object'). -/
def jsTypeof : JsValue → String
  | JsValue.nullV => "object"
  | JsValue.undefinedV => "undefined"
  | JsValue.boolV _ => "boolean"
  | JsValue.numV _ => "number"
  | JsValue.strV _ => "string"
  | JsValue.funcV _ => "function"
  | JsValue.objV _ => "object"

/-- The body that setMetadata hands to sendPayloadViaHttp, including the
socket_id that sendPayloadViaHttp merges into the event. -/
structure MetadataEnvelope where
  action : String
  event_type : String
  metadata : JsValue
  client_msg_id : String
  conversation_id : String
  socket_id : Option String
  deriving DecidableEq

/-- The metadata request envelope built by setMetadata at time now. -/
def metadataEnvelope (convId : String) (sid : Option String) (m : JsValue) (now : Nat) :
    MetadataEnvelope :=
  { action := "sendMessage", event_type := "metadata", metadata := m,
    client_msg_id := "metadata-" ++ toString now, conversation_id := convId,
    socket_id := sid }

/-- Outcome of the fetch that sendPayloadViaHttp performs. httpOk is a
response with ok status (JSON and plain-text bodies both make the call
resolve); httpFail is a non-ok status; httpThrew is any other exception in
the try block with its message. -/
inductive HttpResult where
  | httpOk : HttpResult
  | httpFail (status : Nat) (statusText : String) : HttpResult
  | httpThrew (msg : String) : HttpResult
  deriving DecidableEq

/-- The try/catch around the fetch in sendPayloadViaHttp: a non-ok status is
turned into a thrown Error which the catch rewraps, as it rewraps any other
exception. -/
def httpSendOutcome : HttpResult → Except String Unit
  | HttpResult.httpOk => Except.ok ()
  | HttpResult.httpFail st stx =>
      Except.error ("Failed to send payload via HTTP: HTTP request failed: "
        ++ toString st ++ " " ++ stx)
  | HttpResult.httpThrew m =>
      Except.error ("Failed to send payload via HTTP: " ++ m)

/-- Conversation.setMetadata: validate the argument synchronously (typeof
must be 'object' and the value non-null), then send the metadata envelope via
HTTP and settle on the HTTP response alone. The first component is the
envelope posted by fetch (none when nothing was sent); the second is the
settlement of the returned promise. There is no confirmation-frame listener
and no timer anywhere in this path. -/
def setMetadataRun (apiKey convId : String) (sid : Option String) (m : JsValue)
    (now : Nat) (http : HttpResult) : Option MetadataEnvelope × Except String Unit :=
  if jsTypeof m ≠ "object" ∨ m = JsValue.nullV then
    (none, Except.error "Metadata must be a non-null object.")
  else if apiKey = "" then
    (none, Except.error "API key is required for HTTP communication")
  else
    (some (metadataEnvelope convId sid m now), httpSendOutcome http)

/-- Counterexample to claim C7: setMetadata on a valid object with an ok HTTP
response resolves even though no 'metadata_update_success' confirmation ever
arrives — the promise settles on the HTTP response, so the claimed
15000-millisecond confirmation timeout rejection does not occur. -/
theorem setMetadata_counterexample :
    setMetadataRun "key" "c1" (some "s1") (JsValue.objV 0) 1700000000000 HttpResult.httpOk
      = (some (metadataEnvelope "c1" (some "s1") (JsValue.objV 0) 1700000000000),
          Except.ok ()) := by
  rfl

/-- Claim C7 (amended): setMetadata rejects synchronously with the
descriptive validation error, sending nothing, whenever the argument is null
or not an object; for a valid object (and a non-empty api key) it posts the
metadata envelope once and settles solely according to the HTTP response —
resolving on an ok response with no confirmation wait and no 15-second
timeout, and rejecting with the wrapped HTTP error on a failed send. -/
theorem setMetadata_amended (apiKey convId : String) (sid : Option String) (m : JsValue)
    (now : Nat) (http : HttpResult) :
    ((jsTypeof m ≠ "object" ∨ m = JsValue.nullV) →
        setMetadataRun apiKey convId sid m now http
          = (none, Except.error "Metadata must be a non-null object."))
  ∧ (jsTypeof m = "object" → m ≠ JsValue.nullV → apiKey ≠ "" →
        setMetadataRun apiKey convId sid m now http
          = (some (metadataEnvelope convId sid m now), httpSendOutcome http)) := by
  constructor
  · intro h
    simp [setMetadataRun, h]
  · intro h1 h2 h3
    simp [setMetadataRun, h1, h2, h3]

/-- Concrete instance of the amended setMetadata theorem: a null argument is
rejected synchronously with the validation error and nothing is sent. -/
theorem setMetadata_amended_witness :
    setMetadataRun "key" "c1" none JsValue.nullV 0 HttpResult.httpOk
      = (none, Except.error "Metadata must be a non-null object.") :=
  (setMetadata_amended "key" "c1" none JsValue.nullV 0 HttpResult.httpOk).1 (Or.inr rfl)

/-! ## Conversation registry: getConversation and getUserConversations -/

/-- The parts of a CaptivateChatAPI instance these paths touch: the
conversations Map (conversation id to the identity token of the live
Conversation object it holds), an allocation counter standing for object
identity (each evaluation of new Conversation yields the next token), and
whether this.socket is non-null. -/
structure ApiState where
  conversations : List (String × Nat)
  nextToken : Nat
  socketInit : Bool
  deriving DecidableEq

/-- CaptivateChatAPI.getConversation: return the registered Conversation for
the id when present; otherwise, with an initialized socket, construct a new
one, register it and return it; without a socket, throw. The returned token
is the object identity of the Conversation handed to the caller. -/
def getConversationRun (st : ApiState) (id : String) : Except String (Nat × ApiState) :=
  match mapGet st.conversations id with
  | some tok => Except.ok (tok, st)
  | none =>
      if st.socketInit then
        Except.ok (st.nextToken,
          { st with
              conversations := mapSet st.conversations id st.nextToken,
              nextToken := st.nextToken + 1 })
      else Except.error "WebSocket connection not established"

/-- The user_conversations handler inside CaptivateChatAPI.getUserConversations:
for each conversation id in the inbound payload it evaluates
new Conversation(...) and pushes the result, consulting neither the
conversations Map for an existing object nor storing the new ones there. The
result lists the identity tokens handed to the caller. -/
def getUserConversationsRun (st : ApiState) (ids : List String) : List Nat × ApiState :=
  ((List.range ids.length).map (fun i => st.nextToken + i),
   { st with nextToken := st.nextToken + ids.length })

/-- Counterexample to claim C8: starting from an empty registry with a live
socket, getConversation "c1" constructs and registers the object with
identity token 0, yet a getUserConversations reply listing the same id "c1"
hands the caller a fresh object with token 1 — a second live Conversation
object for an id that already has one, so not every code path preserves the
at-most-one-live-object-per-id property. -/
theorem registry_counterexample :
    getConversationRun { conversations := [], nextToken := 0, socketInit := true } "c1"
      = Except.ok (0, { conversations := [("c1", 0)], nextToken := 1, socketInit := true })
  ∧ (getUserConversationsRun
        { conversations := [("c1", 0)], nextToken := 1, socketInit := true } ["c1"]).1
      = [1]
  ∧ mapGet ([("c1", 0)] : List (String × Nat)) "c1" = some 0
  ∧ (1 : Nat) ≠ 0 := by
  refine ⟨rfl, rfl, rfl, by decide⟩

/-- Claim C8 (amended): getConversation called twice with the same id on the
same instance returns the identical live object — the second call returns the
first call's token and leaves the state unchanged, so a Conversation is
constructed at most once per id by that path; but getUserConversations
constructs a fresh Conversation per item of the reply without consulting or
updating the registry, so under the registry invariant (every registered
token was allocated earlier) each object it returns is distinct from every
registered one, including any registered under the same id. -/
theorem registry_amended :
    (∀ (st : ApiState) (id : String) (tok : Nat) (st' : ApiState),
        getConversationRun st id = Except.ok (tok, st') →
        getConversationRun st' id = Except.ok (tok, st'))
  ∧ (∀ (st : ApiState) (ids : List String),
        (getUserConversationsRun st ids).2.conversations = st.conversations
      ∧ (getUserConversationsRun st ids).1.length = ids.length
      ∧ ∀ t ∈ (getUserConversationsRun st ids).1, st.nextToken ≤ t)
  ∧ (∀ (st : ApiState) (ids : List String),
        (∀ p ∈ st.conversations, p.2 < st.nextToken) →
        ∀ t ∈ (getUserConversationsRun st ids).1, ∀ p ∈ st.conversations, t ≠ p.2) := by
  refine ⟨?_, ?_, ?_⟩
  · intro st id tok st' h
    cases hm : mapGet st.conversations id with
    | some tok0 =>
        simp [getConversationRun, hm] at h
        obtain ⟨h1, h2⟩ := h
        subst h1
        subst h2
        simp [getConversationRun, hm]
    | none =>
        by_cases hs : st.socketInit
        · simp [getConversationRun, hm, hs] at h
          obtain ⟨h1, h2⟩ := h
          subst h1
          subst h2
          simp [getConversationRun, mapGet_mapSet_self]
        · simp [getConversationRun, hm, hs] at h
  · intro st ids
    refine ⟨rfl, by simp [getUserConversationsRun], ?_⟩
    intro t ht
    simp [getUserConversationsRun] at ht
    obtain ⟨i, _, hit⟩ := ht
    omega
  · intro st ids hinv t ht p hp
    have h1 : st.nextToken ≤ t := by
      simp [getUserConversationsRun] at ht
      obtain ⟨i, _, hit⟩ := ht
      omega
    have h2 : p.2 < st.nextToken := hinv p hp
    omega

/-- Concrete instance of the amended registry theorem: re-requesting an id
already constructed by getConversation returns the same object token and
leaves the registry unchanged. -/
theorem registry_amended_witness :
    getConversationRun { conversations := [("c1", 0)], nextToken := 1, socketInit := true } "c1"
      = Except.ok (0, { conversations := [("c1", 0)], nextToken := 1, socketInit := true }) :=
  registry_amended.1 { conversations := [], nextToken := 0, socketInit := true } "c1" 0
    { conversations := [("c1", 0)], nextToken := 1, socketInit := true } rfl

/-! ## Outbound user messages: Conversation.sendMessage -/

/-- A content object as sendMessage handles it: the object with a type field
'text' and a text field, or any other content object kept opaque behind an
identity. -/
inductive ContentVal where
  | typedText (text : String) : ContentVal
  | otherContent (id : Nat) : ContentVal
  deriving DecidableEq

/-- The argument of sendMessage: a plain string or a content object. -/
inductive MsgContent where
  | strArg (s : String) : MsgContent
  | objArg (o : ContentVal) : MsgContent
  deriving DecidableEq

/-- The string coercion at the top of sendMessage: a string argument is
replaced by the object with type 'text' and the string as its text. -/
def normalizeContent : MsgContent → ContentVal
  | MsgContent.strArg s => ContentVal.typedText s
  | MsgContent.objArg o => o

/-- The body of the user_message request as sendPayload and
sendPayloadViaHttp assemble it (payload_type is the payload's type field,
always 'message_create'; socket_id is merged in by sendPayloadViaHttp). -/
structure UserMessageEnvelope where
  action : String
  event_type : String
  payload_type : String
  client_msg_id : String
  conversation_id : String
  content : ContentVal
  socket_id : Option String
  deriving DecidableEq

/-- Conversation.sendMessage at time now: the outbound envelope it hands to
the HTTP send path. -/
def sendMessageEnvelope (convId : String) (sid : Option String) (now : Nat)
    (arg : MsgContent) : UserMessageEnvelope :=
  { action := "sendMessage", event_type := "user_message",
    payload_type := "message_create",
    client_msg_id := "unique-message-id-" ++ toString now,
    conversation_id := convId,
    content := normalizeContent arg,
    socket_id := sid }

/-- Claim C9: sendMessage on a string s sends the same outbound envelope as
sendMessage on the object with type 'text' and text s — a user_message event
whose payload carries that content, the owning conversation_id, and the
client-generated client_msg_id derived from the current time. -/
theorem sendMessage_string_wrap (s convId : String) (sid : Option String) (now : Nat) :
    sendMessageEnvelope convId sid now (MsgContent.strArg s)
      = sendMessageEnvelope convId sid now (MsgContent.objArg (ContentVal.typedText s))
  ∧ (sendMessageEnvelope convId sid now (MsgContent.strArg s)).event_type = "user_message"
  ∧ (sendMessageEnvelope convId sid now (MsgContent.strArg s)).content
      = ContentVal.typedText s
  ∧ (sendMessageEnvelope convId sid now (MsgContent.strArg s)).conversation_id = convId
  ∧ (sendMessageEnvelope convId sid now (MsgContent.strArg s)).client_msg_id
      = "unique-message-id-" ++ toString now :=
  ⟨rfl, rfl, rfl, rfl, rfl⟩

/-! ## Conversation deletion flag: Conversation.delete -/

/-- The body of the delete_conversation request. -/
structure DeleteEnvelope where
  action : String
  event_type : String
  conversation_id : String
  softdelete : Bool
  socket_id : Option String
  deriving DecidableEq

/-- Conversation.delete: the options argument is modelled by its softDelete
property (none when delete() is called with no argument, with an empty
options object, or with softDelete undefined — all of which leave the
destructuring default in force). The envelope carries the resulting
softdelete flag. -/
def deleteRun (convId : String) (sid : Option String) (options : Option Bool) :
    DeleteEnvelope :=
  { action := "sendMessage", event_type := "delete_conversation",
    conversation_id := convId, softdelete := options.getD true, socket_id := sid }

/-- Claim C10: delete() with no options, or with options omitting softDelete,
sends a delete_conversation envelope whose softdelete flag is true, and
passing softDelete false is the only option value that yields a hard
delete. -/
theorem delete_soft_default (convId : String) (sid : Option String) :
    (deleteRun convId sid none).softdelete = true
  ∧ (∀ o : Option Bool, (deleteRun convId sid o).softdelete = false ↔ o = some false) := by
  constructor
  · rfl
  · intro o
    cases o with
    | none => simp [deleteRun]
    | some b => cases b <;> simp [deleteRun]
